import Mathlib

/-!
Verification of the drift-monitoring core of an inference-service repository.

The embedded code comes from `backend/app/api/v1`:
* `detector/evidently_vqa_drift.py` — the windowed drift detector
  (`EvidentlyVQADriftDetector`): sample windows, drift detection, reset;
* `controller/blip.py` — QA feature extraction and question-type detection;
* `controller/yolo.py` — detection-domain feature extraction;
* `routes/yolo.py` — the embedding-drift meter (baseline embedding and
  cosine-distance score) and the reset-reference route.

Python lists become Lean `List`s, dict-shaped return values become
association lists `List (String × Val)`, the external Evidently/pandas
collaborator becomes an `Except`-valued parameter, and wall-clock
timestamps become an explicit `Nat` parameter.
-/

namespace DriftMonitor

/-- A JSON-like value as stored in the Python dicts the detector returns. -/
inductive Val where
  | b : Bool → Val
  | s : String → Val
  | n : Nat → Val
  | q : ℚ → Val
  | obj : List (String × Val) → Val

/-- A Python dict, embedded as an association list in insertion order. -/
abbrev Dict := List (String × Val)

/-- `d.get(k)` / `d[k]` on an embedded dict: the value at the first
occurrence of key `k`, if any. -/
def getKey (d : Dict) (k : String) : Option Val :=
  (d.find? (fun p => p.1 = k)).map (·.2)

/-- The mutable state of `EvidentlyVQADriftDetector` (`__init__`,
`evidently_vqa_drift.py`).  Samples are abstracted to a type `α` standing
for the timestamped feature dict built at the top of `add_sample`. -/
structure Detector (α : Type) where
  reference_window_size : Nat
  detection_window_size : Nat
  reference_data : List α
  current_data : List α
  drift_detected : Bool
  drift_report : Option Dict
  last_check_time : Option Nat

/-- The detector as constructed: empty windows, no report
(`__init__` with the given window sizes). -/
def initDetector (α : Type) (referenceWindow detectionWindow : Nat) : Detector α :=
  { reference_window_size := referenceWindow
    detection_window_size := detectionWindow
    reference_data := []
    current_data := []
    drift_detected := false
    drift_report := none
    last_check_time := none }

/-- The reference window after the "maintain window size" step of
`add_sample` (lines 69–75): when the freshly appended current window
`cur₁` exceeds `detection_window_size` and the reference window is not
yet full, the popped oldest current sample (`cur₁.take 1`) is appended to
the reference window; otherwise the reference window is unchanged. -/
def popStepRef (d : Detector α) (cur₁ : List α) : List α :=
  if d.detection_window_size < cur₁.length then
    if d.reference_data.length < d.reference_window_size then
      d.reference_data ++ cur₁.take 1
    else
      d.reference_data
  else
    d.reference_data

/-- The current window after the "maintain window size" step of
`add_sample`: the oldest sample is popped (`self.current_data.pop(0)`)
exactly when the window exceeds `detection_window_size`. -/
def popStepCur (d : Detector α) (cur₁ : List α) : List α :=
  if d.detection_window_size < cur₁.length then cur₁.drop 1 else cur₁

/-- The "build reference from current" step of `add_sample` (lines
77–82): while the reference window is below capacity `R` and the current
window has reached `D`, the reference window is extended with a copy of
the first `R - len(ref)` current samples. -/
def backfill (R D : Nat) (ref cur : List α) : List α :=
  if ref.length < R ∧ D ≤ cur.length then
    ref ++ cur.take (R - ref.length)
  else
    ref

/-- `EvidentlyVQADriftDetector.add_sample` (lines 53–82): append the new
sample to the current window, pop the oldest current sample into the
reference window (or discard it) when over capacity, then backfill the
reference window from the front of the current window. -/
def addSample (d : Detector α) (x : α) : Detector α :=
  { d with
    reference_data :=
      backfill d.reference_window_size d.detection_window_size
        (popStepRef d (d.current_data ++ [x]))
        (popStepCur d (d.current_data ++ [x]))
    current_data := popStepCur d (d.current_data ++ [x]) }

/-- `EvidentlyVQADriftDetector.reset_reference` (lines 258–269): when the
current window holds at least `reference_window_size` samples, its first
`reference_window_size` samples become the reference window and the rest
remain current; otherwise the whole current window becomes the reference
window.  Drift results are cleared either way. -/
def resetReference (d : Detector α) : Detector α :=
  if d.reference_window_size ≤ d.current_data.length then
    { d with
      reference_data := d.current_data.take d.reference_window_size
      current_data := d.current_data.drop d.reference_window_size
      drift_detected := false
      drift_report := none
      last_check_time := none }
  else
    { d with
      reference_data := d.current_data
      current_data := []
      drift_detected := false
      drift_report := none
      last_check_time := none }

/-- A sequence of `add_sample` calls, oldest first. -/
def runAddSamples (d : Detector α) (samples : List α) : Detector α :=
  samples.foldl addSample d

/-- Both windows within their capacities. -/
def windowsBounded (d : Detector α) : Prop :=
  d.reference_data.length ≤ d.reference_window_size ∧
  d.current_data.length ≤ d.detection_window_size

lemma windowsBounded_init (α : Type) (r dw : Nat) :
    windowsBounded (initDetector α r dw) := by
  constructor <;> simp [initDetector]

lemma backfill_length_le (R D : Nat) (ref cur : List α)
    (h : ref.length ≤ R) : (backfill R D ref cur).length ≤ R := by
  unfold backfill
  split_ifs with h1
  · simp only [List.length_append, List.length_take]
    omega
  · exact h

lemma popStepRef_length_le (d : Detector α) (cur₁ : List α)
    (h : d.reference_data.length ≤ d.reference_window_size) :
    (popStepRef d cur₁).length ≤ d.reference_window_size := by
  unfold popStepRef
  split_ifs with h1 h2
  · simp only [List.length_append, List.length_take]
    omega
  · exact h
  · exact h

lemma popStepCur_length_le (d : Detector α) (x : α)
    (h : d.current_data.length ≤ d.detection_window_size) :
    (popStepCur d (d.current_data ++ [x])).length ≤ d.detection_window_size := by
  unfold popStepCur
  split_ifs with h1
  · simp only [List.length_drop, List.length_append, List.length_singleton]
    omega
  · simp only [List.length_append, List.length_singleton] at h1 ⊢
    omega

lemma addSample_windowsBounded (d : Detector α) (x : α)
    (h : windowsBounded d) : windowsBounded (addSample d x) := by
  rcases h with ⟨h1, h2⟩
  exact ⟨backfill_length_le _ _ _ _ (popStepRef_length_le d _ h1),
         popStepCur_length_le d x h2⟩

lemma runAddSamples_windowsBounded (d : Detector α) (xs : List α)
    (h : windowsBounded d) : windowsBounded (runAddSamples d xs) := by
  induction xs generalizing d with
  | nil => simpa [runAddSamples]
  | cons y ys ih =>
    have hb := addSample_windowsBounded d y h
    simpa [runAddSamples] using ih (addSample d y) hb

lemma runAddSamples_sizes (d : Detector α) (xs : List α) :
    (runAddSamples d xs).reference_window_size = d.reference_window_size ∧
    (runAddSamples d xs).detection_window_size = d.detection_window_size := by
  induction xs generalizing d with
  | nil => exact ⟨rfl, rfl⟩
  | cons y ys ih =>
    have := ih (addSample d y)
    simpa [runAddSamples, addSample] using this

/-- The numeric feature columns the detector monitors
(`self.numeric_features`, `__init__`). -/
def numeric_features : List String :=
  ["brightness", "contrast", "aspect_ratio", "width", "height",
   "question_length", "question_char_length", "question_tokens",
   "answer_length", "answer_char_length", "inference_time"]

/-- The categorical feature columns (`self.categorical_features`). -/
def categorical_features : List String := ["question_type"]

/-- One column entry of `drift_by_columns` as extracted from the
collaborator's report json (`col_data.get(...)` with its defaults already
applied on the collaborator side). -/
structure ColData where
  drift_detected : Bool
  drift_score : ℚ
  stattest_name : String

/-- The `DatasetDriftMetric` result the external Evidently collaborator
returns inside the parsed report json (`dataset_drift_metric` in
`detect_drift`). -/
structure RawMetric where
  dataset_drift : Bool
  drift_share : ℚ
  number_of_drifted_columns : Nat
  drift_by_columns : List (String × ColData)

/-- The per-feature score dict of `detect_drift` (lines 154–162): the
columns of `drift_by_columns` filtered to the monitored features, in
order, each mapped to its `{drift_detected, drift_score, stattest_name}`
sub-dict. -/
def featureDriftScores (m : RawMetric) : Dict :=
  (m.drift_by_columns.filter
    (fun p => (numeric_features ++ categorical_features).contains p.1)).map
    (fun p => (p.1, Val.obj
      [("drift_detected", Val.b p.2.drift_detected),
       ("drift_score", Val.q p.2.drift_score),
       ("stattest_name", Val.s p.2.stattest_name)]))

/-- The successful drift report dict (`self.drift_report`, lines
166–174). -/
def driftReportDict (d : Detector α) (now : Nat) (m : RawMetric) : Dict :=
  [("dataset_drift", Val.b m.dataset_drift),
   ("drift_share", Val.q m.drift_share),
   ("num_drifted_features", Val.n m.number_of_drifted_columns),
   ("feature_drift_scores", Val.obj (featureDriftScores m)),
   ("reference_size", Val.n d.reference_data.length),
   ("current_size", Val.n d.current_data.length),
   ("timestamp", Val.n now)]

/-- The not-ready result of `detect_drift` when the reference window is
short (lines 92–100). -/
def insufficientReferenceDict (d : Detector α) : Dict :=
  [("drift_detected", Val.b false),
   ("reason", Val.s "insufficient_reference_data"),
   ("reference_size", Val.n d.reference_data.length),
   ("required_reference_size", Val.n d.reference_window_size),
   ("current_size", Val.n d.current_data.length),
   ("message", Val.s ("Need " ++
     toString (d.reference_window_size - d.reference_data.length) ++
     " more reference samples"))]

/-- The not-ready result of `detect_drift` when the current window is
short (lines 102–110). -/
def insufficientCurrentDict (d : Detector α) : Dict :=
  [("drift_detected", Val.b false),
   ("reason", Val.s "insufficient_current_data"),
   ("reference_size", Val.n d.reference_data.length),
   ("current_size", Val.n d.current_data.length),
   ("required_current_size", Val.n d.detection_window_size),
   ("message", Val.s ("Need " ++
     toString (d.detection_window_size - d.current_data.length) ++
     " more current samples"))]

/-- The result of `detect_drift` when no `DatasetDriftMetric` entry is
found in the collaborator's report (lines 139–144). -/
def reportGenerationFailedDict : Dict :=
  [("drift_detected", Val.b false),
   ("reason", Val.s "report_generation_failed"),
   ("message", Val.s "Could not extract drift metrics from report")]

/-- The result of the `except` handler of `detect_drift` (lines
179–185): the collaborator's exception message, never re-raised. -/
def comparisonErrorDict (e : String) : Dict :=
  [("drift_detected", Val.b false),
   ("reason", Val.s "error"),
   ("error", Val.s e),
   ("message", Val.s ("Error during drift detection: " ++ e))]

/-- `EvidentlyVQADriftDetector.detect_drift` (lines 84–185).  The whole
`try` block — DataFrame conversion, the Evidently run and the json
extraction of the `DatasetDriftMetric` entry — is the external
collaborator, passed in as `ext`: `Except.error e` is an exception with
message `e` (caught by the `except` handler), `Except.ok none` is a
report without a `DatasetDriftMetric` entry, and `Except.ok (some m)` is
a successfully extracted metric.  Returns the state after the call and
the returned dict. -/
def detectDrift (d : Detector α) (now : Nat)
    (ext : Except String (Option RawMetric)) : Detector α × Dict :=
  if d.reference_data.length < d.reference_window_size then
    (d, insufficientReferenceDict d)
  else if d.current_data.length < d.detection_window_size then
    (d, insufficientCurrentDict d)
  else
    match ext with
    | Except.error e => (d, comparisonErrorDict e)
    | Except.ok none => (d, reportGenerationFailedDict)
    | Except.ok (some m) =>
        ({ d with drift_detected := m.dataset_drift,
                  drift_report := some (driftReportDict d now m),
                  last_check_time := some now },
         driftReportDict d now m)

end DriftMonitor

open DriftMonitor

/-- C1: for every sequence of `add_sample` calls on a detector constructed
with `reference_window_size R` and `detection_window_size D`, after every
call `len(reference_data) ≤ R` and `len(current_data) ≤ D` hold.  (The
state after every call in a sequence is the state reached by some prefix,
so quantifying over all sample lists covers every intermediate call.) -/
theorem addSample_window_invariant (α : Type) (R D : Nat) (samples : List α) :
    (runAddSamples (initDetector α R D) samples).reference_data.length ≤ R ∧
    (runAddSamples (initDetector α R D) samples).current_data.length ≤ D := by
  have hb := runAddSamples_windowsBounded (initDetector α R D) samples
    (windowsBounded_init α R D)
  have hs := runAddSamples_sizes (initDetector α R D) samples
  rcases hb with ⟨h1, h2⟩
  rw [hs.1] at h1
  rw [hs.2] at h2
  exact ⟨h1, h2⟩

/-- C3: on a detector with `reference_window_size = 30` and
`detection_window_size = 20`, `detect_drift` returns the not-ready result
with reason `insufficient_reference_data` whenever the reference window
holds fewer than 30 samples (regardless of the current window, so the
reference check takes priority); with 30 reference samples but fewer than
20 current samples it returns the not-ready result with reason
`insufficient_current_data`; with both thresholds met it produces the
drift report. -/
theorem detectDrift_readiness (α : Type) (ref cur : List α) (b : Bool)
    (rep : Option Dict) (t : Option Nat) (now : Nat)
    (ext : Except String (Option RawMetric)) :
    (ref.length < 30 →
      (detectDrift (Detector.mk 30 20 ref cur b rep t) now ext).2 =
        insufficientReferenceDict (Detector.mk 30 20 ref cur b rep t) ∧
      getKey (detectDrift (Detector.mk 30 20 ref cur b rep t) now ext).2
        "reason" = some (Val.s "insufficient_reference_data"))
  ∧ (30 ≤ ref.length → cur.length < 20 →
      (detectDrift (Detector.mk 30 20 ref cur b rep t) now ext).2 =
        insufficientCurrentDict (Detector.mk 30 20 ref cur b rep t) ∧
      getKey (detectDrift (Detector.mk 30 20 ref cur b rep t) now ext).2
        "reason" = some (Val.s "insufficient_current_data"))
  ∧ (∀ m : RawMetric, 30 ≤ ref.length → 20 ≤ cur.length →
      (detectDrift (Detector.mk 30 20 ref cur b rep t) now
        (Except.ok (some m))).2 =
        driftReportDict (Detector.mk 30 20 ref cur b rep t) now m) := by
  refine ⟨fun h => ?_, fun h1 h2 => ?_, fun m h1 h2 => ?_⟩
  · have hd : (detectDrift (Detector.mk 30 20 ref cur b rep t) now ext).2 =
        insufficientReferenceDict (Detector.mk 30 20 ref cur b rep t) := by
      simp [detectDrift, h]
    exact ⟨hd, by rw [hd]; rfl⟩
  · have hx : ¬ (ref.length < 30) := by omega
    have hd : (detectDrift (Detector.mk 30 20 ref cur b rep t) now ext).2 =
        insufficientCurrentDict (Detector.mk 30 20 ref cur b rep t) := by
      simp [detectDrift, hx, h2]
    exact ⟨hd, by rw [hd]; rfl⟩
  · have hx : ¬ (ref.length < 30) := by omega
    have hy : ¬ (cur.length < 20) := by omega
    simp [detectDrift, hx, hy]

/-- C4: when the external drift-comparison collaborator raises an
exception, `detect_drift` does not propagate it: the reference and
current window sizes are unchanged by the call, and (whenever the
windows are full enough for the collaborator to be invoked at all) the
returned record is the error-shaped dict with reason `"error"` and the
exception message. -/
theorem detectDrift_error_recovery (α : Type) (d : Detector α) (now : Nat)
    (e : String) :
    ((detectDrift d now (Except.error e)).1.reference_data.length =
       d.reference_data.length ∧
     (detectDrift d now (Except.error e)).1.current_data.length =
       d.current_data.length)
  ∧ (d.reference_window_size ≤ d.reference_data.length →
     d.detection_window_size ≤ d.current_data.length →
     (detectDrift d now (Except.error e)).2 = comparisonErrorDict e ∧
     getKey (detectDrift d now (Except.error e)).2 "reason" =
       some (Val.s "error") ∧
     getKey (detectDrift d now (Except.error e)).2 "error" =
       some (Val.s e)) := by
  constructor
  · constructor <;> (unfold detectDrift; split_ifs <;> rfl)
  · intro h1 h2
    have hx : ¬ (d.reference_data.length < d.reference_window_size) := by omega
    have hy : ¬ (d.current_data.length < d.detection_window_size) := by omega
    have hd : (detectDrift d now (Except.error e)).2 = comparisonErrorDict e := by
      simp [detectDrift, hx, hy]
    exact ⟨hd, by rw [hd]; rfl, by rw [hd]; rfl⟩

/-- C10 counterexample: a successful drift report does not carry the key
`drift_detected` at all — at this concrete ready state the report's
`drift_detected` lookup is `none` while the dataset-drift verdict is
stored under `dataset_drift` — so the claim that the non-report results
share "the same key a successful DriftReport uses for dataset drift" is
false. -/
theorem detectDrift_report_key_counterexample :
    getKey (detectDrift (Detector.mk 1 1 [0] [0] false none none) 0
      (Except.ok (some (RawMetric.mk true 1 1 [])))).2 "drift_detected" =
      none ∧
    getKey (detectDrift (Detector.mk 1 1 [0] [0] false none none) 0
      (Except.ok (some (RawMetric.mk true 1 1 [])))).2 "dataset_drift" =
      some (Val.b true) := by
  exact ⟨rfl, rfl⟩

/-- C10 (amended): every non-report return value of `detect_drift` — the
two not-ready results, the `report_generation_failed` result and the
collaborator-error result — contains the key `drift_detected` with value
`False`; a successful drift report contains no `drift_detected` key at
all and stores the dataset-drift verdict under `dataset_drift` instead,
so a caller that reads only `drift_detected` (defaulting a missing key
to `False`) cannot distinguish "not ready" or "error" from any report,
drifted or not. -/
theorem detectDrift_drift_flag (α : Type) (d : Detector α) (now : Nat)
    (ext : Except String (Option RawMetric)) (e : String) (m : RawMetric) :
    (d.reference_data.length < d.reference_window_size →
       getKey (detectDrift d now ext).2 "drift_detected" =
         some (Val.b false))
  ∧ (d.reference_window_size ≤ d.reference_data.length →
     d.current_data.length < d.detection_window_size →
       getKey (detectDrift d now ext).2 "drift_detected" =
         some (Val.b false))
  ∧ (d.reference_window_size ≤ d.reference_data.length →
     d.detection_window_size ≤ d.current_data.length →
       getKey (detectDrift d now (Except.error e)).2 "drift_detected" =
         some (Val.b false)
     ∧ getKey (detectDrift d now (Except.ok none)).2 "drift_detected" =
         some (Val.b false)
     ∧ getKey (detectDrift d now (Except.ok (some m))).2 "drift_detected" =
         none
     ∧ getKey (detectDrift d now (Except.ok (some m))).2 "dataset_drift" =
         some (Val.b m.dataset_drift)) := by
  refine ⟨fun h => ?_, fun h1 h2 => ?_, fun h1 h2 => ?_⟩
  · have hd : (detectDrift d now ext).2 = insufficientReferenceDict d := by
      simp [detectDrift, h]
    rw [hd]; rfl
  · have hx : ¬ (d.reference_data.length < d.reference_window_size) := by omega
    have hd : (detectDrift d now ext).2 = insufficientCurrentDict d := by
      simp [detectDrift, hx, h2]
    rw [hd]; rfl
  · have hx : ¬ (d.reference_data.length < d.reference_window_size) := by omega
    have hy : ¬ (d.current_data.length < d.detection_window_size) := by omega
    have he : (detectDrift d now (Except.error e)).2 = comparisonErrorDict e := by
      simp [detectDrift, hx, hy]
    have hn : (detectDrift d now (Except.ok none)).2 =
        reportGenerationFailedDict := by
      simp [detectDrift, hx, hy]
    have hm : (detectDrift d now (Except.ok (some m))).2 =
        driftReportDict d now m := by
      simp [detectDrift, hx, hy]
    exact ⟨by rw [he]; rfl, by rw [hn]; rfl, by rw [hm]; rfl, by rw [hm]; rfl⟩

/-- C5: `reset_reference` promotes the current window: when it holds at
least `reference_window_size` samples, the new reference window is a
prefix of exactly `reference_window_size` current samples and the new
current window is the remaining suffix (concatenating the two windows
recovers the old current window in order); otherwise the whole current
window becomes the reference window and the current window is emptied. -/
theorem resetReference_promotes_current (α : Type) (d : Detector α) :
    (d.reference_window_size ≤ d.current_data.length →
       (resetReference d).reference_data.length = d.reference_window_size ∧
       (resetReference d).reference_data ++ (resetReference d).current_data =
         d.current_data)
  ∧ (d.current_data.length < d.reference_window_size →
       (resetReference d).reference_data = d.current_data ∧
       (resetReference d).current_data = []) := by
  constructor
  · intro h
    constructor
    · simp [resetReference, h, List.length_take, Nat.min_eq_left h]
    · simp [resetReference, h, List.take_append_drop]
  · intro h
    have hx : ¬ (d.reference_window_size ≤ d.current_data.length) := by omega
    constructor <;> simp [resetReference, hx]

namespace DriftMonitor

lemma addSample_reference_of_full (d : Detector α) (x : α)
    (h : d.reference_data.length = d.reference_window_size) :
    (addSample d x).reference_data = d.reference_data := by
  have hx : ¬ (d.reference_data.length < d.reference_window_size) := by omega
  simp [addSample, popStepRef, popStepCur, backfill, hx]

end DriftMonitor

/-- C9: once the reference window has reached `reference_window_size`,
no later `add_sample` call touches it — after any further sequence of
calls the reference window is the same list — and each call changes only
the current window: the new sample is appended, and exactly when the
window would exceed `detection_window_size` its oldest element is
dropped (FIFO eviction). -/
theorem addSample_reference_frozen (α : Type) (d : Detector α) (x : α)
    (xs : List α)
    (h : d.reference_data.length = d.reference_window_size) :
    (runAddSamples d xs).reference_data = d.reference_data
  ∧ (d.detection_window_size < (d.current_data ++ [x]).length →
      (addSample d x).current_data = (d.current_data ++ [x]).tail)
  ∧ ((d.current_data ++ [x]).length ≤ d.detection_window_size →
      (addSample d x).current_data = d.current_data ++ [x]) := by
  refine ⟨?_, fun hover => ?_, fun hin => ?_⟩
  · induction xs generalizing d with
    | nil => rfl
    | cons y ys ih =>
      have hstep := addSample_reference_of_full d y h
      have hlen : (addSample d y).reference_data.length =
          (addSample d y).reference_window_size := by
        rw [hstep]; exact h
      calc (runAddSamples d (y :: ys)).reference_data
          = (runAddSamples (addSample d y) ys).reference_data := rfl
        _ = (addSample d y).reference_data := ih (addSample d y) hlen
        _ = d.reference_data := hstep
  · have hx : ¬ (d.reference_data.length < d.reference_window_size) := by omega
    have hover' : d.detection_window_size < d.current_data.length + 1 := by
      simpa using hover
    simp [addSample, popStepRef, popStepCur, backfill, hx, hover',
      List.drop_one]
  · have hin' : d.current_data.length + 1 ≤ d.detection_window_size := by
      simpa using hin
    have hx : ¬ (d.detection_window_size < d.current_data.length + 1) := by
      omega
    simp [addSample, popStepCur, hx]

/-- C9 witness: a detector with a full reference window `[5]` (size 1)
and full current window `[6]` (size 1); adding sample 7 keeps the
reference window `[5]` and evicts the oldest current sample, leaving
`[7]`. -/
theorem addSample_reference_frozen_witness :
    (runAddSamples (Detector.mk 1 1 [5] [6] false none none) [7]).reference_data
      = [5] ∧
    (addSample (Detector.mk 1 1 [5] [6] false none none) 7).current_data
      = [7] := by
  have h := addSample_reference_frozen Nat
    (Detector.mk 1 1 [5] [6] false none none) 7 [7] rfl
  refine ⟨h.1, ?_⟩
  rw [h.2.1 (by decide)]
  rfl

namespace DriftMonitor

/-- The specification's own wording of `add_sample` (§4.2 of the spec),
as a second definition to compare with `addSample`: append to Current;
if Current then exceeds its capacity, pop the oldest Current sample and
append it to Reference when Reference is not yet full, otherwise pop and
discard it; afterwards, if Reference is still below capacity and Current
has reached capacity, backfill Reference from the front of Current by
the shortfall amount (copying, not removing). -/
def addSampleSpec (d : Detector α) (x : α) : Detector α :=
  let cur := d.current_data ++ [x]
  let popped : List α × List α :=
    if cur.length > d.detection_window_size then
      match cur with
      | [] => (d.reference_data, [])
      | oldest :: rest =>
        if d.reference_data.length < d.reference_window_size then
          (d.reference_data ++ [oldest], rest)
        else
          (d.reference_data, rest)
    else
      (d.reference_data, cur)
  if popped.1.length < d.reference_window_size ∧
     popped.2.length ≥ d.detection_window_size then
    { d with
      reference_data :=
        popped.1 ++ popped.2.take (d.reference_window_size - popped.1.length)
      current_data := popped.2 }
  else
    { d with reference_data := popped.1, current_data := popped.2 }

end DriftMonitor

/-- C2: `add_sample` behaves exactly as described — append to Current,
move the popped oldest Current sample to Reference when Reference is
not yet full and discard it otherwise, then backfill Reference by the
shortfall from the front of Current — and the backfill copies rather
than removes, so during warm-up one sample can sit in both windows: with
`reference_window_size = 2` and `detection_window_size = 1`, the very
first sample ends up in both the reference and the current window. -/
theorem addSample_matches_description :
    (∀ (α : Type) (d : Detector α) (x : α), addSample d x = addSampleSpec d x)
  ∧ (7 ∈ (addSample (initDetector Nat 2 1) 7).reference_data ∧
     7 ∈ (addSample (initDetector Nat 2 1) 7).current_data) := by
  constructor
  · intro α d x
    unfold addSample addSampleSpec popStepRef popStepCur backfill
    rcases hc : d.current_data ++ [x] with _ | ⟨a, rest⟩
    · exact absurd hc (by simp)
    · by_cases hover : d.detection_window_size < rest.length + 1
      · by_cases href : d.reference_data.length < d.reference_window_size
        · simp only [hc, hover, href, ge_iff_le, if_true, if_false,
            List.length_cons, List.take_cons, List.length_append,
            List.length_singleton, List.singleton_append, ite_true,
            and_true, List.append_assoc, List.cons_append, List.nil_append]
          simp [hover, href]
          split_ifs <;> rfl
        · simp [hc, hover, href, ge_iff_le]
      · simp [hc, hover, ge_iff_le]
        split_ifs <;> rfl
  · constructor <;> decide

namespace DriftMonitor

/-- Python `str.lower()` as used on the question text, on the character
list of a string (ASCII case mapping, `Char.toLower`). -/
def lowerChars (cs : List Char) : List Char := cs.map Char.toLower

/-- Python `str.strip()`: drop leading and trailing whitespace. -/
def stripChars (cs : List Char) : List Char :=
  ((cs.dropWhile Char.isWhitespace).reverse.dropWhile Char.isWhitespace).reverse

/-- Python `str.startswith(pre)` on character lists. -/
def startsWithChars (cs pre : List Char) : Bool := pre.isPrefixOf cs

/-- `BLIPController._detect_question_type` (blip.py lines 186–216):
lowercase and strip the question, then walk the fixed chain of
`startswith` tests, the two-word `how many`/`how much` checks before the
bare `how` check, falling through to `"other"`. -/
def detectQuestionType (question : String) : String :=
  let ql := stripChars (lowerChars question.data)
  if startsWithChars ql "what".data then "what"
  else if startsWithChars ql "where".data then "where"
  else if startsWithChars ql "when".data then "when"
  else if startsWithChars ql "who".data then "who"
  else if startsWithChars ql "why".data then "why"
  else if startsWithChars ql "how many".data ||
          startsWithChars ql "how much".data then "how_many"
  else if startsWithChars ql "how".data then "how"
  else if startsWithChars ql "is".data || startsWithChars ql "are".data ||
          startsWithChars ql "do".data || startsWithChars ql "does".data
       then "yes_no"
  else "other"

/-- The ordered rule table of the question-type classifier as the
specification states it: prefix sets in priority order, each mapped to
its label. -/
def questionTypeRules : List (List String × String) :=
  [(["what"], "what"), (["where"], "where"), (["when"], "when"),
   (["who"], "who"), (["why"], "why"),
   (["how many", "how much"], "how_many"), (["how"], "how"),
   (["is", "are", "do", "does"], "yes_no")]

/-- First-matching-rule lookup over a rule table: the label of the first
rule one of whose prefixes matches, else `"other"`. -/
def firstMatchingRule (ql : List Char) : List (List String × String) → String
  | [] => "other"
  | r :: rs =>
    if r.1.any (fun p => startsWithChars ql p.data) then r.2
    else firstMatchingRule ql rs

/-- The specification's description of the classifier: first matching
prefix wins over the lowercase, trimmed question text, in the fixed
priority order of `questionTypeRules`. -/
def classifyByFirstRule (question : String) : String :=
  firstMatchingRule (stripChars (lowerChars question.data)) questionTypeRules

end DriftMonitor

/-- C6: the question-type classifier lowercases and trims the question
and returns the first matching prefix in the fixed priority order
(`what`, `where`, `when`, `who`, `why`, `how many`/`how much` →
`how_many`, `how`, `is`/`are`/`do`/`does` → `yes_no`, else `other`);
in particular "What is this?" → `what`, "How many cats are there?" →
`how_many` (not `how`), "Is this a dog?" → `yes_no`, and
"Describe this" → `other`. -/
theorem detectQuestionType_rule_table :
    (∀ q : String, detectQuestionType q = classifyByFirstRule q)
  ∧ detectQuestionType "What is this?" = "what"
  ∧ detectQuestionType "How many cats are there?" = "how_many"
  ∧ detectQuestionType "Is this a dog?" = "yes_no"
  ∧ detectQuestionType "Describe this" = "other" := by
  refine ⟨fun q => ?_, by decide, by decide, by decide, by decide⟩
  unfold detectQuestionType classifyByFirstRule questionTypeRules
  by_cases h1 : startsWithChars (stripChars (lowerChars q.data)) "what".data = true
  · simp [firstMatchingRule, h1]
  · by_cases h2 : startsWithChars (stripChars (lowerChars q.data)) "where".data = true
    · simp [firstMatchingRule, h1, h2]
    · by_cases h3 : startsWithChars (stripChars (lowerChars q.data)) "when".data = true
      · simp [firstMatchingRule, h1, h2, h3]
      · by_cases h4 : startsWithChars (stripChars (lowerChars q.data)) "who".data = true
        · simp [firstMatchingRule, h1, h2, h3, h4]
        · by_cases h5 : startsWithChars (stripChars (lowerChars q.data)) "why".data = true
          · simp [firstMatchingRule, h1, h2, h3, h4, h5]
          · by_cases h6 : startsWithChars (stripChars (lowerChars q.data)) "how many".data = true
            · simp [firstMatchingRule, h1, h2, h3, h4, h5, h6]
            · by_cases h7 : startsWithChars (stripChars (lowerChars q.data)) "how much".data = true
              · simp [firstMatchingRule, h1, h2, h3, h4, h5, h6, h7]
              · by_cases h8 : startsWithChars (stripChars (lowerChars q.data)) "how".data = true
                · simp [firstMatchingRule, h1, h2, h3, h4, h5, h6, h7, h8]
                · by_cases h9 : startsWithChars (stripChars (lowerChars q.data)) "is".data = true
                  · simp [firstMatchingRule, h1, h2, h3, h4, h5, h6, h7, h8, h9]
                  · by_cases h10 : startsWithChars (stripChars (lowerChars q.data)) "are".data = true
                    · simp [firstMatchingRule, h1, h2, h3, h4, h5, h6, h7, h8, h9, h10]
                    · by_cases h11 : startsWithChars (stripChars (lowerChars q.data)) "do".data = true
                      · simp [firstMatchingRule, h1, h2, h3, h4, h5, h6, h7, h8, h9, h10, h11]
                      · by_cases h12 : startsWithChars (stripChars (lowerChars q.data)) "does".data = true
                        · simp [firstMatchingRule, h1, h2, h3, h4, h5, h6, h7, h8, h9, h10, h11, h12]
                        · simp [firstMatchingRule, h1, h2, h3, h4, h5, h6, h7, h8, h9, h10, h11, h12]

namespace DriftMonitor

/-- Python `len(s.split())`: the number of maximal whitespace-free runs. -/
def wordCount (cs : List Char) : Nat :=
  (cs.foldl (fun acc c =>
      if c.isWhitespace then (acc.1, false)
      else if acc.2 then acc else (acc.1 + 1, true))
    ((0 : Nat), false)).1

/-- The feature record `BLIPController._extract_features` returns
(blip.py lines 167–184). -/
structure QAFeatures where
  brightness : ℚ
  contrast : ℚ
  aspect_ratio : ℚ
  width : Nat
  height : Nat
  question_length : Nat
  question_char_length : Nat
  question_type : String
  question_tokens : Nat
  answer_length : Nat
  answer_char_length : Nat

/-- `BLIPController._extract_features` (blip.py lines 128–184).
`brightness` and `contrast` are the `np.mean`/`np.std` results of the
external numpy collaborator and `question_tokens` the token count of the
processed model inputs; they are passed in.  The aspect ratio is the
guarded division `width / height if height > 0 else 1.0`; the question
and answer features are computed from the texts. -/
def blipExtractFeatures (brightness contrast : ℚ) (width height : Nat)
    (question answer : String) (question_tokens : Nat) : QAFeatures :=
  { brightness := brightness
    contrast := contrast
    aspect_ratio := if 0 < height then (width : ℚ) / height else 1
    width := width
    height := height
    question_length := wordCount question.data
    question_char_length := question.data.length
    question_type := detectQuestionType question
    question_tokens := question_tokens
    answer_length := wordCount answer.data
    answer_char_length := answer.data.length }

/-- The feature record `YOLOController._extract_features` returns
(yolo.py lines 190–207). -/
structure DetFeatures where
  brightness : ℚ
  contrast : ℚ
  aspect_ratio : ℚ
  width : Nat
  height : Nat
  num_detections : Nat
  avg_confidence : ℚ
  embedding_features : List ℚ
  vram_allocated : ℚ

/-- `YOLOController._extract_features` (yolo.py lines 152–207).
`brightness`/`contrast` come from numpy on the grayscale image,
`avg_confidence` and the detections from the model results,
`embedding_features` from `_extract_embedding_features` and
`vram_allocated` from the CUDA runtime; all are passed in.  The aspect
ratio is the same guarded division as in the QA extractor. -/
def yoloExtractFeatures (brightness contrast : ℚ) (width height : Nat)
    (num_detections : Nat) (avg_confidence : ℚ)
    (embedding_features : List ℚ) (vram_allocated : ℚ) : DetFeatures :=
  { brightness := brightness
    contrast := contrast
    aspect_ratio := if 0 < height then (width : ℚ) / height else 1
    width := width
    height := height
    num_detections := num_detections
    avg_confidence := avg_confidence
    embedding_features := embedding_features
    vram_allocated := vram_allocated }

end DriftMonitor

/-- C8: feature extraction is total, and on a zero-height image both
extractors substitute the defined default `aspect_ratio = 1.0` instead
of dividing by zero, so a complete feature record exists for every
successful inference; for a positive height the aspect ratio is the
ordinary quotient `width / height`. -/
theorem extractFeatures_zero_height_default (brightness contrast : ℚ)
    (width : Nat) (question answer : String) (question_tokens : Nat)
    (num_detections : Nat) (avg_confidence : ℚ) (embedding_features : List ℚ)
    (vram_allocated : ℚ) (height : Nat) :
    ((blipExtractFeatures brightness contrast width 0 question answer
        question_tokens).aspect_ratio = 1
   ∧ (yoloExtractFeatures brightness contrast width 0 num_detections
        avg_confidence embedding_features vram_allocated).aspect_ratio = 1)
  ∧ (0 < height →
      (blipExtractFeatures brightness contrast width height question answer
        question_tokens).aspect_ratio = (width : ℚ) / height
    ∧ (yoloExtractFeatures brightness contrast width height num_detections
        avg_confidence embedding_features vram_allocated).aspect_ratio =
        (width : ℚ) / height) := by
  constructor
  · constructor <;> simp [blipExtractFeatures, yoloExtractFeatures]
  · intro hpos
    constructor <;> simp [blipExtractFeatures, yoloExtractFeatures, hpos]

namespace DriftMonitor

/-- Dot product of two embedding rows (`np.dot` on the flattened
vectors). -/
def dotList (v w : List ℚ) : ℚ := (List.zipWith (· * ·) v w).sum

lemma dotList_self_nonneg (v : List ℚ) : 0 ≤ dotList v v := by
  induction v with
  | nil => simp [dotList]
  | cons a t ih =>
    have hc : dotList (a :: t) (a :: t) = a * a + dotList t t := by
      simp [dotList]
    rw [hc]
    nlinarith [mul_self_nonneg a]

/-- `sklearn.metrics.pairwise.cosine_similarity` of two single-row
matrices, read off at `[0][0]`: the dot product over the product of the
Euclidean norms.  sklearn leaves a zero-norm row as the zero vector
(its `normalize` substitutes norm 1), which makes the similarity 0 —
the same value this definition takes, since division by zero is zero. -/
noncomputable def cosineSimilarity (v w : List ℚ) : ℝ :=
  ((dotList v w : ℚ) : ℝ) /
    (Real.sqrt ((dotList v v : ℚ) : ℝ) * Real.sqrt ((dotList w w : ℚ) : ℝ))

lemma one_sub_cosineSimilarity_self (v : List ℚ) (hd : dotList v v ≠ 0) :
    (1 : ℝ) - cosineSimilarity v v = 0 := by
  unfold cosineSimilarity
  have hnn : (0 : ℝ) ≤ ((dotList v v : ℚ) : ℝ) := by
    exact_mod_cast dotList_self_nonneg v
  rw [Real.mul_self_sqrt hnn]
  rw [div_self (by exact_mod_cast hd)]
  ring

/-- The embedding-drift meter of `routes/yolo.py`: the module-global
`reference_embedding`, `None` until the first request. -/
structure EmbeddingMeter where
  reference_embedding : Option (List ℚ)

/-- The embedding-drift part of the `detect_objects` handler
(routes/yolo.py lines 148–154): set the baseline to the current
embedding when it is still `None`, then score
`1 - cosine_similarity(reference_embedding, embedding)[0][0]`. -/
noncomputable def embeddingDriftStep (st : EmbeddingMeter)
    (embedding : List ℚ) : EmbeddingMeter × ℝ :=
  let base := st.reference_embedding.getD embedding
  (⟨some base⟩, 1 - cosineSimilarity base embedding)

/-- The `/drift/reset-reference` route handler (routes/yolo.py lines
264–282): it calls `evidently_detector.reset_reference()` and returns
updated statistics; it contains no `global reference_embedding` and no
assignment to it, so the meter state passes through unchanged.  The
YOLO-domain Evidently detector lives in `detector/evidently_drift.py`,
which is not among the staged sources; modelled from the spec: the
per-domain windowing logic is a duplicate of the QA detector's state
machine (spec §9, "two copies of the same state machine"), so the
detector component reuses `Detector`/`resetReference`. -/
def resetReferenceRoute (st : EmbeddingMeter) (det : Detector α) :
    EmbeddingMeter × Detector α :=
  (st, resetReference det)

end DriftMonitor

/-- C7 counterexample: the reset-reference operation does not set the
embedding baseline anew.  Start fresh, query with `[1,0,0,0]` (which
becomes the baseline), call the reset-reference route, then query twice
with `[0,1,0,0]`: the claim predicts the re-query scores distance 0
against a freshly set baseline, but the code still compares against
`[1,0,0,0]` and scores 1. -/
theorem embeddingDrift_reset_counterexample :
    (embeddingDriftStep
      (embeddingDriftStep
        (resetReferenceRoute
          (embeddingDriftStep ⟨none⟩ [1, 0, 0, 0]).1
          (initDetector (List ℚ) 30 20)).1
        [0, 1, 0, 0]).1
      [0, 1, 0, 0]).2 = 1 ∧ (1 : ℝ) ≠ 0 := by
  constructor
  · have h0 : dotList [(1 : ℚ), 0, 0, 0] [0, 1, 0, 0] = 0 := by norm_num [dotList]
    simp [embeddingDriftStep, resetReferenceRoute, cosineSimilarity, h0]
  · norm_num

/-- C7 (amended): the embedding drift distance is
`1 - cosine_similarity(baseline, current)`; the baseline is set to the
first request's embedding after process start and the distance is
exactly 0 whenever the current embedding equals the baseline and has
nonzero norm; but the reset-reference route leaves the baseline
unchanged (it resets only the Evidently detector windows), so a query
after a reset is still scored against the original baseline. -/
theorem embeddingDrift_baseline (st : EmbeddingMeter) (v : List ℚ)
    (det : Detector (List ℚ)) :
    (st.reference_embedding = none →
       (embeddingDriftStep st v).1.reference_embedding = some v
     ∧ (dotList v v ≠ 0 → (embeddingDriftStep st v).2 = 0))
  ∧ (∀ b, st.reference_embedding = some b →
       (embeddingDriftStep st v).1 = st
     ∧ (v = b → dotList b b ≠ 0 → (embeddingDriftStep st v).2 = 0))
  ∧ (resetReferenceRoute st det).1 = st
  ∧ (resetReferenceRoute st det).2 = resetReference det := by
  refine ⟨fun hn => ⟨?_, fun hd => ?_⟩, fun b hb => ⟨?_, fun hv hd => ?_⟩,
    rfl, rfl⟩
  · simp [embeddingDriftStep, hn]
  · simpa [embeddingDriftStep, hn] using one_sub_cosineSimilarity_self v hd
  · cases st
    simp_all [embeddingDriftStep]
  · subst hv
    simpa [embeddingDriftStep, hb] using one_sub_cosineSimilarity_self v hd
